import Mathlib

/-!
Verification development for the IPMI LAN Configuration Parameter handler
(transporthandler.cpp).  The relevant C++ functions are shallowly embedded
as Lean functions over an explicit network-state record.  D-Bus property
reads/writes become reads/updates of the state; calls that can throw
(elog<InternalFailure>, sdbus errors, and the undefined dereference of a
disengaged std::optional) return an Except value.
-/

namespace Transport

/-- Combined DHCP mode, mirroring EthernetInterface::DHCPConf
(single property holding the enablement of both IP families). -/
inductive DHCPConf
  | none
  | v4
  | v6
  | both
  deriving DecidableEq, Repr

/-- Address origin, mirroring IP::AddressOrigin from the network service. -/
inductive AddressOrigin
  | Static
  | DHCP
  | SLAAC
  | LinkLocal
  deriving DecidableEq, Repr

/-- IPMI completion codes issued by the handler (the response* helpers and
cc* constants used in transporthandler.cpp). -/
inductive CC
  | success
  | reqDataLenInvalid
  | invalidFieldRequest
  | paramNotSupported
  | paramReadOnly
  | paramOutOfRange
  | commandNotAvailable
  | paramSetLocked
  | unspecifiedError
  deriving DecidableEq, Repr

/-- Failures surfaced as C++ exceptions: elog<InternalFailure>, a named
sdbus error re-raised by deleteObjectIfExists, the undefined behaviour of
dereferencing a disengaged std::optional, and (for stating the spec's
claimed error kind) a distinct invalid-parameter error which the source
never actually produces. -/
inductive Failure
  | internalFailure
  | invalidParameter
  | emptyOptionalDeref
  | sdbus (name : String)
  deriving DecidableEq, Repr

/-- Object paths handed out by the network-management service.  eth is the
physical interface object, vlan the logical VLAN object layered on it. -/
inductive DbusPath
  | eth (ifname : String)
  | vlan (ifname : String) (id : Nat)
  deriving DecidableEq, Repr

/-- Name of the interface a path belongs to (both the physical object and
any VLAN object layered on it contain the interface name). -/
def DbusPath.ifnameOf : DbusPath → String
  | .eth n => n
  | .vlan n _ => n

/-- ChannelParams from transporthandler: channel id, interface name,
owning service, physical interface path and logical (VLAN-or-physical)
path. -/
structure ChannelParams where
  id : Nat
  ifname : String
  service : String
  ifPath : DbusPath
  logicalPath : DbusPath
  deriving DecidableEq, Repr

/-- IfAddr<family>: a configured address object.  prefixLen is the C++
field named prefix; path is the object identity used for deletion;
ifacePath is the interface object the address lives under. -/
structure IfAddrM where
  address : Nat
  prefixLen : Nat
  origin : AddressOrigin
  path : Nat
  ifacePath : DbusPath
  deriving DecidableEq, Repr

/-- IfNeigh<family>: a static neighbor object (gateway MAC entry). -/
structure IfNeighM where
  ip : Nat
  mac : Nat
  path : Nat
  ifacePath : DbusPath
  deriving DecidableEq, Repr

/-- The observable state of the network-management service for one
channel, plus the ChannelParams the handler threads through its calls.
dhcp, gateway and vlan id are per-object properties keyed by path;
address and neighbor objects are kept in enumeration order. -/
structure NetworkState where
  params : ChannelParams
  addrs4 : List IfAddrM
  addrs6 : List IfAddrM
  dhcp : DbusPath → DHCPConf
  gateway4 : DbusPath → Option Nat
  gateway6 : DbusPath → Option Nat
  neigh4 : List IfNeighM
  neigh6 : List IfNeighM
  vlanId : DbusPath → Nat
  nextObjId : Nat

/-- Pointwise update of a path-keyed property map. -/
def updMap {α : Type} (f : DbusPath → α) (p : DbusPath) (v : α) : DbusPath → α :=
  fun q => if q = p then v else f q

/-- Valid address origins for IPv4 (originsV4 in the source). -/
def originsV4 : List AddressOrigin := [.Static, .DHCP]

/-- Modelled from the spec: originsV6Static, declared in the missing
header.  Only Static-origin addresses are visible to the IPv6 static
slot paths (spec 4.4). -/
def originsV6Static : List AddressOrigin := [.Static]

/-- getDHCPProperty: reads the combined DHCPEnabled property of the
logical interface object. -/
def getDHCPProperty (st : NetworkState) : DHCPConf :=
  st.dhcp st.params.logicalPath

/-- The nextDhcp computation inside setDHCPv4Property (lines 186-214):
nextDhcp starts at none and is only reassigned in the listed branches. -/
def nextDhcpV4 (currentDhcp requestedDhcp : DHCPConf) : DHCPConf :=
  if currentDhcp = .v6 ∧ requestedDhcp = .v4 then .both
  else if currentDhcp = .none ∧ requestedDhcp = .v4 then requestedDhcp
  else if requestedDhcp = .none then
    if currentDhcp = .both then .v6
    else if currentDhcp = .v4 then .none
    else .none
  else currentDhcp

/-- The nextDhcp computation inside setDHCPv6Property for
defaultMode=true (lines 229-257); with defaultMode=false the requested
value is assigned verbatim. -/
def nextDhcpV6 (currentDhcp requestedDhcp : DHCPConf) : DHCPConf :=
  if currentDhcp = .v4 ∧ requestedDhcp = .v6 then .both
  else if currentDhcp = .none ∧ requestedDhcp = .v6 then requestedDhcp
  else if requestedDhcp = .none then
    if currentDhcp = .both then .v4
    else if currentDhcp = .v6 then .none
    else .none
  else currentDhcp

/-- setDHCPv4Property: read the current combined mode, compute the next
mode, write it back as one property write. -/
def setDHCPv4Property (st : NetworkState) (requestedDhcp : DHCPConf) : NetworkState :=
  let nextDhcp := nextDhcpV4 (getDHCPProperty st) requestedDhcp
  { st with dhcp := updMap st.dhcp st.params.logicalPath nextDhcp }

/-- setDHCPv6Property with its defaultMode flag: in default mode the
table is applied, otherwise the requested value is written verbatim. -/
def setDHCPv6Property (st : NetworkState) (requestedDhcp : DHCPConf)
    (defaultMode : Bool) : NetworkState :=
  let nextDhcp :=
    if defaultMode then nextDhcpV6 (getDHCPProperty st) requestedDhcp
    else requestedDhcp
  { st with dhcp := updMap st.dhcp st.params.logicalPath nextDhcp }

/-- The table the spec claims for setDHCPv4Property: the four listed
transitions and otherwise the current mode left unchanged.  Stated from
the spec's words, to be compared with nextDhcpV4 from the source. -/
def claimedNextV4 (current requested : DHCPConf) : DHCPConf :=
  if current = .v6 ∧ requested = .v4 then .both
  else if current = .none ∧ requested = .v4 then .v4
  else if requested = .none ∧ current = .both then .v6
  else if requested = .none ∧ current = .v4 then .none
  else current

/-- A concrete state used for counterexamples: one channel, no VLAN,
DHCP currently v6-only. -/
def sampleStateV6 : NetworkState where
  params := ⟨1, "eth0", "svc", .eth "eth0", .eth "eth0"⟩
  addrs4 := []
  addrs6 := []
  dhcp := fun _ => .v6
  gateway4 := fun _ => none
  gateway6 := fun _ => none
  neigh4 := []
  neigh6 := []
  vlanId := fun _ => 0
  nextObjId := 0

example : nextDhcpV4 .v6 .none = .none := by decide
example : nextDhcpV6 .v4 .none = .none := by decide

/-- C2 counterexample: with the combined mode currently v6 and an IPv4
request of none, setDHCPv4Property writes none (the initializer value),
not the unchanged v6 the claimed table requires. -/
theorem setDHCPv4_clears_v6_on_none_request :
    (setDHCPv4Property sampleStateV6 .none).dhcp (.eth "eth0") = .none ∧
    claimedNextV4 .v6 .none = .v6 ∧
    (DHCPConf.none ≠ DHCPConf.v6) := by
  refine ⟨?_, by decide, by decide⟩
  rfl

/-- C2 (amended): the table the code implements.  It matches the claimed
table except when the request is none and the current mode is neither
both nor v4: there nextDhcp keeps its none initializer, so a v6-only
mode is cleared to none instead of being left unchanged. -/
def amendedNextV4 (current requested : DHCPConf) : DHCPConf :=
  if current = .v6 ∧ requested = .v4 then .both
  else if current = .none ∧ requested = .v4 then .v4
  else if requested = .none then (if current = .both then .v6 else .none)
  else current

/-- The symmetric amended table for setDHCPv6Property in default mode. -/
def amendedNextV6 (current requested : DHCPConf) : DHCPConf :=
  if current = .v4 ∧ requested = .v6 then .both
  else if current = .none ∧ requested = .v6 then .v6
  else if requested = .none then (if current = .both then .v4 else .none)
  else current

/-- C2 (amended, proved): for every state and request, setDHCPv4Property
writes the amended-table value of the current mode at the logical path,
and setDHCPv6Property in default mode writes the symmetric amended-table
value.  The four transitions the claim lists are all contained in the
amended tables; only the claim's final "else unchanged" clause fails. -/
theorem setDHCP_follows_amended_table (st : NetworkState) (req : DHCPConf) :
    (setDHCPv4Property st req).dhcp st.params.logicalPath
      = amendedNextV4 (st.dhcp st.params.logicalPath) req ∧
    (setDHCPv6Property st req true).dhcp st.params.logicalPath
      = amendedNextV6 (st.dhcp st.params.logicalPath) req := by
  have h4 : ∀ cur r, nextDhcpV4 cur r = amendedNextV4 cur r := by
    intro cur r; cases cur <;> cases r <;> rfl
  have h6 : ∀ cur r, nextDhcpV6 cur r = amendedNextV6 cur r := by
    intro cur r; cases cur <;> cases r <;> rfl
  constructor
  · show (updMap st.dhcp st.params.logicalPath _) st.params.logicalPath = _
    rw [updMap, if_pos rfl, getDHCPProperty, h4]
  · show (updMap st.dhcp st.params.logicalPath _) st.params.logicalPath = _
    rw [updMap, if_pos rfl, if_pos rfl, getDHCPProperty, h6]

/-! ### Object deletion (deleteObjectIfExists, lines 309-332) -/

/-- deleteObjectIfExists, parameterized over the outcome the backend
Delete call would have (none = success, some name = a thrown sdbus error
with that name).  The returned Bool records whether the Delete call was
issued at all; the Except is the result visible to the caller: the two
listed error names are swallowed, everything else is re-raised. -/
def deleteObjectIfExists (path : String) (callResult : Option String) :
    Bool × Except Failure Unit :=
  if path = "" then (false, .ok ())
  else
    match callResult with
    | none => (true, .ok ())
    | some e =>
        if e ≠ "xyz.openbmc_project.Common.Error.InternalFailure" ∧
           e ≠ "org.freedesktop.DBus.Error.UnknownObject" then
          (true, .error (.sdbus e))
        else (true, .ok ())

/-! ### Address and neighbor lookups

The lookup helpers (getIfAddr/findIfAddr, findStaticNeighbor,
getGatewayProperty, createNeighbor, ObjectLookupCache) are declared in
the missing transporthandler header; they are modelled from the spec
(sections 3-4.5): an address lookup walks the address objects of the
logical interface in enumeration order, keeps those whose origin is in
the allowed set, and returns the idx-th survivor; a static-neighbor
lookup finds the neighbor object of the logical interface with the
given ip; creation appends a fresh object under the logical interface. -/

/-- Modelled from the spec: findIfAddr / getIfAddr for one family.  The
cache argument is the enumerated list of address objects (the
ObjectLookupCache contents at the time it was built). -/
def findIfAddrIn (params : ChannelParams) (idx : Nat)
    (origins : List AddressOrigin) (cache : List IfAddrM) : Option IfAddrM :=
  (cache.filter (fun a =>
    a.ifacePath == params.logicalPath && origins.contains a.origin))[idx]?

/-- getIfAddr4: the first IPv4 address of Static or DHCP origin. -/
def getIfAddr4 (st : NetworkState) : Option IfAddrM :=
  findIfAddrIn st.params 0 originsV4 st.addrs4

/-- Modelled from the spec: findStaticNeighbor — the neighbor object of
the logical interface holding the given ip. -/
def findStaticNeighborIn (params : ChannelParams) (gw : Nat)
    (cache : List IfNeighM) : Option IfNeighM :=
  cache.find? (fun n => n.ifacePath == params.logicalPath && n.ip == gw)

/-- Modelled from the spec: getGatewayProperty for IPv4 — the per-family
gateway property of the logical interface. -/
def getGatewayProperty4 (st : NetworkState) : Option Nat :=
  st.gateway4 st.params.logicalPath

/-- Modelled from the spec: getGatewayProperty for IPv6. -/
def getGatewayProperty6 (st : NetworkState) : Option Nat :=
  st.gateway6 st.params.logicalPath

/-- Modelled from the spec: setGatewayProperty for IPv4. -/
def setGatewayProperty4 (st : NetworkState) (gw : Nat) : NetworkState :=
  { st with gateway4 := updMap st.gateway4 st.params.logicalPath (some gw) }

/-- createIfAddr for IPv4: asks the backend to create a new (static)
address object under the logical interface. -/
def createIfAddr4 (st : NetworkState) (address pfxLen : Nat) : NetworkState :=
  { st with
    addrs4 := st.addrs4 ++ [⟨address, pfxLen, .Static, st.nextObjId,
                             st.params.logicalPath⟩]
    nextObjId := st.nextObjId + 1 }

/-- createIfAddr for IPv6. -/
def createIfAddr6 (st : NetworkState) (address pfxLen : Nat) : NetworkState :=
  { st with
    addrs6 := st.addrs6 ++ [⟨address, pfxLen, .Static, st.nextObjId,
                             st.params.logicalPath⟩]
    nextObjId := st.nextObjId + 1 }

/-- Modelled from the spec: createNeighbor for IPv4. -/
def createNeighbor4 (st : NetworkState) (ip mac : Nat) : NetworkState :=
  { st with
    neigh4 := st.neigh4 ++ [⟨ip, mac, st.nextObjId, st.params.logicalPath⟩]
    nextObjId := st.nextObjId + 1 }

/-- Modelled from the spec: createNeighbor for IPv6. -/
def createNeighbor6 (st : NetworkState) (ip mac : Nat) : NetworkState :=
  { st with
    neigh6 := st.neigh6 ++ [⟨ip, mac, st.nextObjId, st.params.logicalPath⟩]
    nextObjId := st.nextObjId + 1 }

/-- A successful backend Delete of an IPv4 address object (the state
effect of deleteObjectIfExists on a path owned by the state). -/
def deleteAddr4 (st : NetworkState) (path : Nat) : NetworkState :=
  { st with addrs4 := st.addrs4.filter (fun a => a.path ≠ path) }

/-- A successful backend Delete of an IPv6 address object. -/
def deleteAddr6 (st : NetworkState) (path : Nat) : NetworkState :=
  { st with addrs6 := st.addrs6.filter (fun a => a.path ≠ path) }

/-- A successful backend Delete of an IPv4 neighbor object. -/
def deleteNeigh4 (st : NetworkState) (path : Nat) : NetworkState :=
  { st with neigh4 := st.neigh4.filter (fun n => n.path ≠ path) }

/-! ### IPv4 address reconciliation (reconfigureIfAddr4, lines 376-394) -/

/-- Modelled from the spec: AddrFamily<AF_INET>::defaultPrefix from the
missing header (the IPv4 default prefix length). -/
def defaultPrefix4 : Nat := 32

/-- Modelled from the spec: AddrFamily<AF_INET6>::defaultPrefix from the
missing header (the IPv6 default prefix length). -/
def defaultPrefix6 : Nat := 128

/-- The C++ expression ifaddr->address: dereferencing the optional is
undefined behaviour when it is disengaged. -/
def derefAddress (ifaddr : Option IfAddrM) : Except Failure Nat :=
  match ifaddr with
  | some a => .ok a.address
  | none => .error .emptyOptionalDeref

/-- reconfigureIfAddr4: look up the current IPv4 address, fail if there
is neither a current nor a supplied one, otherwise delete the current
one (capturing its prefix as fallback) and create the new address.  The
call createIfAddr(address.value_or(ifaddr->address), ...) evaluates
ifaddr->address eagerly, before value_or selects, so the dereference
happens even when a supplied address would make it unnecessary. -/
def reconfigureIfAddr4 (st : NetworkState) (address pfxLen : Option Nat) :
    Except Failure NetworkState :=
  let ifaddr := getIfAddr4 st
  if ifaddr.isNone && address.isNone then .error .internalFailure
  else
    let fallbackPfx := match ifaddr with
      | some a => a.prefixLen
      | none => defaultPrefix4
    let st1 := match ifaddr with
      | some a => deleteAddr4 st a.path
      | none => st
    match derefAddress ifaddr with
    | .error e => .error e
    | .ok prior =>
        .ok (createIfAddr4 st1 (address.getD prior) (pfxLen.getD fallbackPfx))

/-! ### IPv6 slotted addresses (lines 446-469) -/

/-- deconfigureIfAddr6: find the Static-origin address at slot idx and
delete it; no-op when the slot is empty. -/
def deconfigureIfAddr6 (st : NetworkState) (idx : Nat) : NetworkState :=
  match findIfAddrIn st.params idx originsV6Static st.addrs6 with
  | some a => deleteAddr6 st a.path
  | none => st

/-- reconfigureIfAddr6: unconditionally deconfigure the slot, then
create the new address. -/
def reconfigureIfAddr6 (st : NetworkState) (idx address pfxLen : Nat) :
    NetworkState :=
  createIfAddr6 (deconfigureIfAddr6 st idx) address pfxLen

/-! ### Netmask and prefix codec (lines 674-707)

in_addr values are represented by their host-byte-order 32-bit numeric
value; htobe32 and be32toh cancel in the composition and only reorder
the representation. -/

/-- prefixToNetmask: prefix 0 maps to the all-zero mask (avoiding the
undefined 32-bit shift), prefixes above 32 raise InternalFailure. -/
def prefixToNetmask (pfxLen : Nat) : Except Failure Nat :=
  if pfxLen > 32 then .error .internalFailure
  else if pfxLen = 0 then .ok 0
  else .ok ((0xFFFFFFFF <<< (32 - pfxLen)) % 4294967296)

/-- The __builtin_ctz loop: number of trailing zero bits (only called on
nonzero values; the fuel bounds the 32-bit width). -/
def ctz32 : Nat → Nat → Nat
  | 0, _ => 0
  | fuel + 1, x => if x % 2 = 1 then 0 else ctz32 fuel (x / 2) + 1

/-- netmaskToPrefix: rejects masks whose complement is not of the form
2 to the k minus 1 (the (~x & (~x+1)) != 0 check) with InternalFailure,
then computes 32 minus the trailing-zero count.  Named with a Len suffix
to keep the embedding free of reserved-suffix identifiers. -/
def netmaskToPrefixLen (netmask : Nat) : Except Failure Nat :=
  let x := netmask % 4294967296
  let nx := 4294967295 - x
  if Nat.land nx ((nx + 1) % 4294967296) ≠ 0 then .error .internalFailure
  else .ok (if x ≠ 0 then 32 - ctz32 32 x else 0)

example : netmaskToPrefixLen 0xFFFFFF00 = .ok 24 := rfl
example : prefixToNetmask 24 = .ok 0xFFFFFF00 := rfl
example : netmaskToPrefixLen 0x00FFFFFF = .error .internalFailure := rfl

/-! ### Gateway MAC reconciliation (reconfigureGatewayMAC, lines 419-438) -/

/-- reconfigureGatewayMAC for IPv4: requires a gateway to be set, then
replaces any existing static neighbor for it with a fresh entry. -/
def reconfigureGatewayMAC4 (st : NetworkState) (mac : Nat) :
    Except Failure NetworkState :=
  match getGatewayProperty4 st with
  | none => .error .internalFailure
  | some gw =>
      let st1 := match findStaticNeighborIn st.params gw st.neigh4 with
        | some n => deleteNeigh4 st n.path
        | none => st
      .ok (createNeighbor4 st1 gw mac)

/-- findGatewayNeighbor for IPv4 over a previously built neighbor cache:
nothing when no gateway is configured, otherwise the static neighbor
entry for the gateway ip. -/
def findGatewayNeighbor4 (st : NetworkState) (cache : List IfNeighM) :
    Option IfNeighM :=
  match getGatewayProperty4 st with
  | none => none
  | some gw => findStaticNeighborIn st.params gw cache

/-- findGatewayNeighbor for IPv6. -/
def findGatewayNeighbor6 (st : NetworkState) (cache : List IfNeighM) :
    Option IfNeighM :=
  match getGatewayProperty6 st with
  | none => none
  | some gw => findStaticNeighborIn st.params gw cache

/-! ### VLAN lifecycle (lines 531-667) -/

/-- VLAN_VALUE_MASK from the header: the 12-bit id mask 0xFFF. -/
def VLAN_VALUE_MASK : Nat := 0xFFF

/-- VLAN_ENABLE_FLAG from the header: bit 15 of the packed Get LAN
VLANId response. -/
def VLAN_ENABLE_FLAG : Nat := 0x8000

/-- getVLANProperty: 0 when no separate logical object exists, otherwise
the Id property of the VLAN object, which must fit the 12-bit mask. -/
def getVLANProperty (st : NetworkState) : Except Failure Nat :=
  if st.params.ifPath = st.params.logicalPath then .ok 0
  else
    let vlan := st.vlanId st.params.logicalPath
    if Nat.land vlan VLAN_VALUE_MASK ≠ vlan then .error .internalFailure
    else .ok vlan

/-- deconfigureChannel: the mapper enumerates every deletable object
whose path contains the interface name — the address, neighbor and VLAN
objects of the channel — and deletes them; if the VLAN logical object
was among them (exactly when logicalPath differs from ifPath) the
logical path collapses back to the physical one.  Finally the DHCP
state of the lower interface is force-cleared to none through the
non-default-mode escape of setDHCPv6Property. -/
def deconfigureChannel (st : NetworkState) : NetworkState :=
  let ifname := st.params.ifname
  let keep4 := st.addrs4.filter (fun a => a.ifacePath.ifnameOf ≠ ifname)
  let keep6 := st.addrs6.filter (fun a => a.ifacePath.ifnameOf ≠ ifname)
  let keepN4 := st.neigh4.filter (fun n => n.ifacePath.ifnameOf ≠ ifname)
  let keepN6 := st.neigh6.filter (fun n => n.ifacePath.ifnameOf ≠ ifname)
  let ps :=
    if st.params.logicalPath ≠ st.params.ifPath then
      { st.params with logicalPath := st.params.ifPath }
    else st.params
  let st1 := { st with
    params := ps, addrs4 := keep4, addrs6 := keep6,
    neigh4 := keepN4, neigh6 := keepN6 }
  setDHCPv6Property st1 .none false

/-- createVLAN: no-op for id 0; otherwise the backend creates the VLAN
object for (ifname, id) and the logical path moves to it. -/
def createVLAN (st : NetworkState) (vlan : Nat) : NetworkState :=
  if vlan = 0 then st
  else
    let newPath := DbusPath.vlan st.params.ifname vlan
    { st with
      params := { st.params with logicalPath := newPath }
      vlanId := updMap st.vlanId newPath vlan }

/-- MAX_IPV6_STATIC_ADDRESSES. Modelled from the spec: the fixed upper
bound on IPv6 static slots, declared in the missing header. -/
def MAX_IPV6_STATIC_ADDRESSES : Nat := 15

/-- The snapshot loop of reconfigureVLAN (lines 631-640): collect the
IPv6 static addresses at consecutive slots starting at i, stopping at
the first empty slot or when the fuel (the slot bound) runs out. -/
def collectIfAddrs6 (params : ChannelParams) (cache : List IfAddrM) :
    Nat → Nat → List IfAddrM
  | _, 0 => []
  | i, fuel + 1 =>
      match findIfAddrIn params i originsV6Static cache with
      | none => []
      | some a => a :: collectIfAddrs6 params cache (i + 1) fuel

/-- reconfigureVLAN: snapshot the IPv4 address, the IPv6 static
addresses, the combined DHCP mode and the per-family gateway neighbors
from the old logical interface; tear the channel down; create the new
VLAN; then replay the snapshot onto the new logical interface (the DHCP
mode verbatim through the non-default-mode escape). -/
def reconfigureVLAN (st : NetworkState) (vlan : Nat) : NetworkState :=
  let ifaddr4 := findIfAddrIn st.params 0 originsV4 st.addrs4
  let ifaddrs6 := collectIfAddrs6 st.params st.addrs6 0 MAX_IPV6_STATIC_ADDRESSES
  let dhcp := getDHCPProperty st
  let neighbor4 := findGatewayNeighbor4 st st.neigh4
  let neighbor6 := findGatewayNeighbor6 st st.neigh6
  let st1 := createVLAN (deconfigureChannel st) vlan
  let st2 := setDHCPv6Property st1 dhcp false
  let st3 := match ifaddr4 with
    | some a => createIfAddr4 st2 a.address a.prefixLen
    | none => st2
  let st4 := ifaddrs6.foldl (fun s a => createIfAddr6 s a.address a.prefixLen) st3
  let st5 := match neighbor4 with
    | some n => createNeighbor4 st4 n.ip n.mac
    | none => st4
  match neighbor6 with
  | some n => createNeighbor6 st5 n.ip n.mac
  | none => st5

/-! ### SetStatus latch (lines 711-733 and 827-865) -/

/-- SetStatus.  Modelled from the spec: the enum values follow the
protocol's 2-bit field (00 complete, 01 in progress, 10 commit). -/
inductive SetStatus
  | Complete
  | InProgress
  | Commit
  deriving DecidableEq, Repr

/-- Decode of the 2-bit flag into SetStatus (the static_cast at line
839); 3 is outside the enum. -/
def decodeSetStatus : Nat → Option SetStatus
  | 0 => some .Complete
  | 1 => some .InProgress
  | 2 => some .Commit
  | _ => none

/-- The per-channel setStatus map, as an association list; getSetStatus
defaults a missing channel to Complete (the default insertion it
performs is observationally the same). -/
def lookupSetStatus (m : List (Nat × SetStatus)) (channel : Nat) : SetStatus :=
  ((m.find? (fun p => p.1 == channel)).map (fun p => p.2)).getD .Complete

/-- Store a status for a channel. -/
def storeSetStatus (m : List (Nat × SetStatus)) (channel : Nat)
    (v : SetStatus) : List (Nat × SetStatus) :=
  (channel, v) :: m

/-- The Set LAN SetStatus case: flag is the 2-bit status field, rsvd the
6 reserved bits (nonzero reserved bits are an invalid-field error).
Complete is always stored; InProgress is refused with the
parameter-locked code while already InProgress; Commit outside an
InProgress session is an invalid-field error and otherwise succeeds
without changing the stored value. -/
def setLanSetStatus (m : List (Nat × SetStatus)) (channel flag rsvd : Nat) :
    CC × List (Nat × SetStatus) :=
  if rsvd ≠ 0 then (.invalidFieldRequest, m)
  else
    match decodeSetStatus flag with
    | some .Complete => (.success, storeSetStatus m channel .Complete)
    | some .InProgress =>
        if lookupSetStatus m channel = .InProgress then (.paramSetLocked, m)
        else (.success, storeSetStatus m channel .InProgress)
    | some .Commit =>
        if lookupSetStatus m channel ≠ .InProgress then (.invalidFieldRequest, m)
        else (.success, m)
    | none => (.paramNotSupported, m)

/-! ### IPv6 response packing (lines 476-529) -/

/-- IPv6Source: the 4-bit source-type field of the IPv6 address
parameters. -/
inductive IPv6Source
  | Static
  | SLAAC
  | DHCP
  deriving DecidableEq, Repr

/-- IPv6AddressStatus: the 1-byte status field. -/
inductive IPv6AddressStatus
  | Active
  | Disabled
  deriving DecidableEq, Repr

/-- originToSourceType: origins with no protocol representation raise
InternalFailure. -/
def originToSourceType : AddressOrigin → Except Failure IPv6Source
  | .Static => .ok .Static
  | .DHCP => .ok .DHCP
  | .SLAAC => .ok .SLAAC
  | _ => .error .internalFailure

/-- The packed payload of an IPv6 address parameter read: set selector,
source type, enabled bit, raw address, prefix length, status byte. -/
structure IPv6AddrResponse where
  set : Nat
  source : IPv6Source
  enabled : Bool
  address : Nat
  prefixLen : Nat
  status : IPv6AddressStatus
  deriving DecidableEq, Repr

/-- getLanIPv6Address: query the slot through the channel and pack
either the defaults (disabled slot) or the found address (lines
505-529).  Performs one backend lookup. -/
def getLanIPv6Address (st : NetworkState) (set : Nat)
    (origins : List AddressOrigin) : Except Failure IPv6AddrResponse :=
  match findIfAddrIn st.params set origins st.addrs6 with
  | none => .ok ⟨set, .Static, false, 0, defaultPrefix6, .Disabled⟩
  | some a =>
      match originToSourceType a.origin with
      | .error e => .error e
      | .ok src => .ok ⟨set, src, true, a.address, a.prefixLen, .Active⟩

/-! ### LAN parameter engine cases -/

/-- Unpack of a 4-byte field (in_addr or similar) from the request
payload; the request must be fully consumed, otherwise the handler
returns the length-mismatch code.  Bytes are combined in wire order
into the numeric value used by the model. -/
def unpack4 (payload : List Nat) : Option Nat :=
  match payload with
  | [b0, b1, b2, b3] => some (((b0 * 256 + b1) * 256 + b2) * 256 + b3)
  | _ => none

/-- The Set LAN IP case (lines 876-894): while DHCPv4 is active the
command is not available and nothing is touched; otherwise the payload
is decoded and the IPv4 address reconfigured with no explicit prefix. -/
def setLanIP (st : NetworkState) (payload : List Nat) :
    Except Failure (CC × NetworkState) :=
  let dhcp := getDHCPProperty st
  if dhcp = .v4 ∨ dhcp = .both then .ok (.commandNotAvailable, st)
  else
    match unpack4 payload with
    | none => .ok (.reqDataLenInvalid, st)
    | some ip =>
        match reconfigureIfAddr4 st (some ip) none with
        | .error e => .error e
        | .ok st1 => .ok (.success, st1)

/-- The Set LAN SubnetMask case (lines 951-970): same DHCPv4 guard, then
the netmask is converted to a prefix length and the address
reconfigured with no explicit address. -/
def setLanSubnetMask (st : NetworkState) (payload : List Nat) :
    Except Failure (CC × NetworkState) :=
  let dhcp := getDHCPProperty st
  if dhcp = .v4 ∨ dhcp = .both then .ok (.commandNotAvailable, st)
  else
    match unpack4 payload with
    | none => .ok (.reqDataLenInvalid, st)
    | some netmask =>
        match netmaskToPrefixLen netmask with
        | .error e => .error e
        | .ok p =>
            match reconfigureIfAddr4 st none (some p) with
            | .error e => .error e
            | .ok st1 => .ok (.success, st1)

/-- The Set LAN Gateway1 case (lines 971-989): same DHCPv4 guard, then
the gateway property is written. -/
def setLanGateway1 (st : NetworkState) (payload : List Nat) :
    Except Failure (CC × NetworkState) :=
  let dhcp := getDHCPProperty st
  if dhcp = .v4 ∨ dhcp = .both then .ok (.commandNotAvailable, st)
  else
    match unpack4 payload with
    | none => .ok (.reqDataLenInvalid, st)
    | some gw => .ok (.success, setGatewayProperty4 st gw)

/-- The Set LAN VLANId case (lines 1002-1033), over the decoded 12-bit
id, 3 reserved bits and enable bit, together with the per-channel
lastDisabledVlan map.  Disabling stores the id as last-disabled and
reconfigures to VLAN 0; enabling rejects ids 0 and 0xFFF and otherwise
reconfigures to the id. -/
def setLanVLANId (st : NetworkState) (ldv : List (Nat × Nat))
    (channel vlanData rsvd : Nat) (vlanEnable : Bool) :
    CC × NetworkState × List (Nat × Nat) :=
  if rsvd ≠ 0 then (.invalidFieldRequest, st, ldv)
  else if !vlanEnable then
    (.success, reconfigureVLAN st 0, (channel, vlanData) :: ldv)
  else if vlanData = 0 ∨ vlanData = VLAN_VALUE_MASK then
    (.invalidFieldRequest, st, ldv)
  else (.success, reconfigureVLAN st vlanData, ldv)

/-- Lookup in the lastDisabledVlan map; operator[] defaults a missing
channel to 0. -/
def lookupLastDisabledVlan (ldv : List (Nat × Nat)) (channel : Nat) : Nat :=
  ((ldv.find? (fun p => p.1 == channel)).map (fun p => p.2)).getD 0

/-- The Get LAN VLANId case (lines 1336-1349): a live VLAN id is packed
with the enable flag set; otherwise the last-disabled id is returned
verbatim (enable bit clear). -/
def getLanVLANId (st : NetworkState) (ldv : List (Nat × Nat))
    (channel : Nat) : Except Failure Nat :=
  match getVLANProperty st with
  | .error e => .error e
  | .ok vlan =>
      if vlan ≠ 0 then .ok (Nat.lor vlan VLAN_ENABLE_FLAG)
      else .ok (lookupLastDisabledVlan ldv channel)

/-- The Set LAN IPv6StaticAddresses case (lines 1063-1091), over the
decoded fields: nonzero reserved bits are an invalid-field error, and
otherwise the set selector is handed unchecked to the slot reconfigure
(enabled) or slot deconfigure (disabled) operation. -/
def setLanIPv6StaticAddresses (st : NetworkState)
    (set rsvd : Nat) (enabled : Bool) (ip pfxLen _status : Nat) :
    CC × NetworkState :=
  if rsvd ≠ 0 then (.invalidFieldRequest, st)
  else if enabled then (.success, reconfigureIfAddr6 st set ip pfxLen)
  else (.success, deconfigureIfAddr6 st set)

/-- The Get LAN IPv6StaticAddresses case (lines 1402-1410): selectors at
or above the slot bound return parameter-out-of-range before any
backend query; the Bool records whether the backend was queried. -/
def getLanIPv6StaticAddresses (st : NetworkState) (set : Nat) :
    Except Failure CC × Bool :=
  if MAX_IPV6_STATIC_ADDRESSES ≤ set then (.ok .paramOutOfRange, false)
  else
    match getLanIPv6Address st set originsV6Static with
    | .error e => (.error e, true)
    | .ok _ => (.ok .success, true)

/-! ### Theorems: SetStatus latch (claim C3) -/

/-- C3: for every channel and stored map, the Set LAN SetStatus
parameter acts as the latch: Complete always succeeds and stores
Complete; InProgress succeeds and stores InProgress unless the stored
status is already InProgress, in which case the parameter-locked code is
returned and nothing changes; Commit is an invalid-field error while the
stored status is Complete and succeeds (leaving InProgress stored) while
InProgress. -/
theorem setStatus_latch (m : List (Nat × SetStatus)) (channel : Nat) :
    (setLanSetStatus m channel 0 0 = (.success, storeSetStatus m channel .Complete) ∧
      lookupSetStatus (storeSetStatus m channel .Complete) channel = .Complete) ∧
    (lookupSetStatus m channel ≠ .InProgress →
      setLanSetStatus m channel 1 0 = (.success, storeSetStatus m channel .InProgress) ∧
      lookupSetStatus (storeSetStatus m channel .InProgress) channel = .InProgress) ∧
    (lookupSetStatus m channel = .InProgress →
      setLanSetStatus m channel 1 0 = (.paramSetLocked, m)) ∧
    (lookupSetStatus m channel = .Complete →
      setLanSetStatus m channel 2 0 = (.invalidFieldRequest, m)) ∧
    (lookupSetStatus m channel = .InProgress →
      setLanSetStatus m channel 2 0 = (.success, m)) := by
  refine ⟨⟨rfl, ?_⟩, ?_, ?_, ?_, ?_⟩
  · simp [lookupSetStatus, storeSetStatus]
  · intro h
    constructor
    · simp [setLanSetStatus, decodeSetStatus, h]
    · simp [lookupSetStatus, storeSetStatus]
  · intro h
    simp [setLanSetStatus, decodeSetStatus, h]
  · intro h
    simp [setLanSetStatus, decodeSetStatus, h]
  · intro h
    simp [setLanSetStatus, decodeSetStatus, h]

/-- C3 witness: the latch at channel 1, starting from the empty map and
from a map already holding InProgress. -/
theorem setStatus_latch_witness :
    (setLanSetStatus [] 1 0 0 = (.success, storeSetStatus [] 1 .Complete) ∧
      lookupSetStatus (storeSetStatus [] 1 .Complete) 1 = .Complete) ∧
    (setLanSetStatus [] 1 1 0 = (.success, storeSetStatus [] 1 .InProgress) ∧
      lookupSetStatus (storeSetStatus [] 1 .InProgress) 1 = .InProgress) ∧
    setLanSetStatus [(1, SetStatus.InProgress)] 1 1 0 =
      (.paramSetLocked, [(1, SetStatus.InProgress)]) ∧
    setLanSetStatus [] 1 2 0 = (.invalidFieldRequest, []) ∧
    setLanSetStatus [(1, SetStatus.InProgress)] 1 2 0 =
      (.success, [(1, SetStatus.InProgress)]) :=
  ⟨(setStatus_latch [] 1).1,
   (setStatus_latch [] 1).2.1 (by decide),
   (setStatus_latch [(1, .InProgress)] 1).2.2.1 (by decide),
   (setStatus_latch [] 1).2.2.2.1 (by decide),
   (setStatus_latch [(1, .InProgress)] 1).2.2.2.2 (by decide)⟩

/-! ### Theorems: netmask codec (claim C6) -/

deriving instance DecidableEq for Except

/-- A left-aligned contiguous run of 1-bits in 32 bits: one of the 33
values 2^32 - 2^k. -/
def isLeftAlignedMask (m : Nat) : Bool :=
  (List.range 33).any (fun k => m == 4294967296 - 2 ^ k)

/-- Bitwise helper: an odd number shares its bit pattern above bit 0
with its successor halved. -/
theorem land_double_succ (m : Nat) :
    Nat.land (2 * m + 1) (2 * m + 2) = 2 * Nat.land m (m + 1) := by
  have hand : ∀ a b : Nat, Nat.land a b = a &&& b := fun _ _ => rfl
  rw [hand, hand]
  apply Nat.eq_of_testBit_eq
  intro i
  cases i with
  | zero =>
      simp only [Nat.testBit_land, Nat.testBit_zero]
      have h1 : (2 * m + 1) % 2 = 1 := by omega
      have h2 : (2 * m + 2) % 2 = 0 := by omega
      have h3 : (2 * (m &&& (m + 1))) % 2 = 0 := by omega
      simp [h1, h2, h3]
  | succ i =>
      have h1 : (2 * m + 1) / 2 = m := by omega
      have h2 : (2 * m + 2) / 2 = m + 1 := by omega
      have h3 : (2 * (m &&& (m + 1))) / 2 = m &&& (m + 1) := by omega
      simp only [Nat.testBit_land]
      simp only [Nat.testBit_succ, h1, h2, h3]
      simp [Nat.testBit_land]

/-- Bitwise helper: an even number is entirely shared with its
successor. -/
theorem land_double (m : Nat) :
    Nat.land (2 * m) (2 * m + 1) = 2 * m := by
  have hand : ∀ a b : Nat, Nat.land a b = a &&& b := fun _ _ => rfl
  rw [hand]
  apply Nat.eq_of_testBit_eq
  intro i
  cases i with
  | zero =>
      simp only [Nat.testBit_land, Nat.testBit_zero]
      have h1 : (2 * m) % 2 = 0 := by omega
      simp [h1]
  | succ i =>
      have h1 : (2 * m + 1) / 2 = m := by omega
      have h2 : (2 * m) / 2 = m := by omega
      simp only [Nat.testBit_land]
      simp [Nat.testBit_succ, h1, h2]

/-- A number shares no bit with its successor exactly when it is a block
of low 1-bits (2^k - 1). -/
theorem land_succ_eq_zero_iff (y : Nat) :
    Nat.land y (y + 1) = 0 ↔ ∃ k, y = 2 ^ k - 1 := by
  induction y using Nat.strong_induction_on with
  | _ y ih =>
    rcases Nat.even_or_odd y with he | ho
    · obtain ⟨m, hm⟩ := he
      rcases Nat.eq_zero_or_pos m with hm0 | hmpos
      · subst hm0
        have hy : y = 0 := by omega
        subst hy
        constructor
        · intro _; exact ⟨0, by norm_num⟩
        · intro _; decide
      · have hy : y = 2 * m := by omega
        subst hy
        rw [land_double]
        constructor
        · intro h; omega
        · rintro ⟨k, hk⟩
          exfalso
          cases k with
          | zero =>
              have h0 : (2 : Nat) ^ 0 = 1 := rfl
              omega
          | succ j =>
              have hj : (2 : Nat) ^ (j + 1) = 2 * 2 ^ j := by ring
              have hpos : (1 : Nat) ≤ 2 ^ j := Nat.one_le_two_pow
              omega
    · obtain ⟨m, hm⟩ := ho
      subst hm
      have h2 : 2 * m + 1 + 1 = 2 * m + 2 := by ring
      rw [h2, land_double_succ]
      have hiff := ih m (by omega)
      constructor
      · intro h
        have hz : Nat.land m (m + 1) = 0 := by omega
        obtain ⟨k, hk⟩ := hiff.mp hz
        refine ⟨k + 1, ?_⟩
        have hj : (2 : Nat) ^ (k + 1) = 2 * 2 ^ k := by ring
        have hpos : (1 : Nat) ≤ 2 ^ k := Nat.one_le_two_pow
        omega
      · rintro ⟨k, hk⟩
        cases k with
        | zero =>
            exfalso
            have h0 : (2 : Nat) ^ 0 = 1 := rfl
            omega
        | succ j =>
            have hj : (2 : Nat) ^ (j + 1) = 2 * 2 ^ j := by ring
            have hpos : (1 : Nat) ≤ 2 ^ j := Nat.one_le_two_pow
            have hmj : m = 2 ^ j - 1 := by omega
            have hz := hiff.mpr ⟨j, hmj⟩
            omega

/-- C6 counterexample: the non-contiguous netmask 0x00FFFFFF is indeed
rejected, but with the same InternalFailure that prefixToNetmask uses
for oversized prefixes, not a distinct invalid-parameter error — the
source raises InternalFailure in both functions. -/
theorem netmaskToPrefixLen_error_kind :
    netmaskToPrefixLen 0x00FFFFFF = .error .internalFailure ∧
    Failure.internalFailure ≠ Failure.invalidParameter :=
  ⟨rfl, by decide⟩

/-- C6 (amended): the round-trip holds for every prefix 0..32,
prefixToNetmask 0 is the all-zero mask, prefixes above 32 raise an
internal error, and every 32-bit netmask that is not a left-aligned
contiguous run of 1-bits is rejected — with the same internal error
(InternalFailure), not a distinct invalid-parameter error. -/
theorem netmask_codec_amended :
    (∀ p : Nat, p ≤ 32 →
      (prefixToNetmask p).bind netmaskToPrefixLen = .ok p) ∧
    prefixToNetmask 0 = .ok 0 ∧
    (∀ p : Nat, 32 < p → prefixToNetmask p = .error .internalFailure) ∧
    (∀ m : Nat, m < 4294967296 → isLeftAlignedMask m = false →
      netmaskToPrefixLen m = .error .internalFailure) := by
  refine ⟨by decide, rfl, ?_, ?_⟩
  · intro p hp
    simp only [prefixToNetmask]
    rw [if_pos hp]
  · intro m hm hal
    have hne : ¬ ∃ k, k ≤ 32 ∧ m = 4294967296 - 2 ^ k := by
      rintro ⟨k, hk, hmk⟩
      have : isLeftAlignedMask m = true := by
        simp only [isLeftAlignedMask, List.any_eq_true, List.mem_range]
        exact ⟨k, by omega, by simp [hmk]⟩
      rw [hal] at this
      exact Bool.false_ne_true this
    simp only [netmaskToPrefixLen]
    have hx : m % 4294967296 = m := Nat.mod_eq_of_lt hm
    rw [hx]
    rcases Nat.eq_zero_or_pos m with h0 | hpos
    · exfalso
      exact hne ⟨32, le_refl 32, by norm_num [h0]⟩
    · have hnx : 4294967295 - m < 4294967295 := by omega
      have hmod : (4294967295 - m + 1) % 4294967296 = 4294967295 - m + 1 :=
        Nat.mod_eq_of_lt (by omega)
      rw [hmod]
      rw [if_pos]
      intro hz
      obtain ⟨k, hk⟩ := (land_succ_eq_zero_iff (4294967295 - m)).mp hz
      have hkle : k ≤ 32 := by
        by_contra hgt
        have h33 : 33 ≤ k := by omega
        have : (2 : Nat) ^ 33 ≤ 2 ^ k := Nat.pow_le_pow_right (by norm_num) h33
        have h33v : (2 : Nat) ^ 33 = 8589934592 := by norm_num
        omega
      have hpow : (2 : Nat) ^ k ≤ 2 ^ 32 := Nat.pow_le_pow_right (by norm_num) hkle
      have h32v : (2 : Nat) ^ 32 = 4294967296 := by norm_num
      have hpos2 : (1 : Nat) ≤ 2 ^ k := Nat.one_le_two_pow
      exact hne ⟨k, hkle, by omega⟩

/-- C6 witness: the amended statement applied at prefix 7, at the
oversized prefix 33, and at the non-contiguous mask 0x00FFFFFF. -/
theorem netmask_codec_amended_witness :
    (prefixToNetmask 7).bind netmaskToPrefixLen = .ok 7 ∧
    prefixToNetmask 33 = .error .internalFailure ∧
    netmaskToPrefixLen 0x00FFFFFF = .error .internalFailure :=
  ⟨netmask_codec_amended.1 7 (by norm_num),
   netmask_codec_amended.2.2.1 33 (by norm_num),
   netmask_codec_amended.2.2.2 0x00FFFFFF (by norm_num) (by decide)⟩

/-! ### Theorems: IPv4 reconfiguration accesses an absent optional (claim C4) -/

/-- C4: on a channel with no configured IPv4 address, a Set LAN IP style
call that does supply a new address reaches the
createIfAddr(address.value_or(ifaddr->address), ...) call, whose
argument expression dereferences the disengaged ifaddr optional before
value_or discards it — the undefined behaviour the claim says never
happens.  The error-if-neither-present guard itself behaves as claimed
(second and third conjuncts). -/
theorem reconfigureIfAddr4_deref_absent :
    reconfigureIfAddr4 sampleStateV6 (some 3232235521) none =
      .error .emptyOptionalDeref ∧
    getIfAddr4 sampleStateV6 = none ∧
    reconfigureIfAddr4 sampleStateV6 none none = .error .internalFailure :=
  ⟨rfl, rfl, rfl⟩

/-! ### Theorems: DHCPv4 guard on address writes (claim C7) -/

/-- C7: while the combined DHCP mode of the channel is v4 or both, the
Set LAN IP, SubnetMask and Gateway1 cases return the
command-not-currently-available completion code with the network state
untouched, whatever the payload. -/
theorem dhcp_guard_rejects_v4_writes (st : NetworkState) (payload : List Nat)
    (h : st.dhcp st.params.logicalPath = .v4 ∨
         st.dhcp st.params.logicalPath = .both) :
    setLanIP st payload = .ok (.commandNotAvailable, st) ∧
    setLanSubnetMask st payload = .ok (.commandNotAvailable, st) ∧
    setLanGateway1 st payload = .ok (.commandNotAvailable, st) := by
  rcases h with h | h <;>
    exact ⟨by simp [setLanIP, getDHCPProperty, h],
           by simp [setLanSubnetMask, getDHCPProperty, h],
           by simp [setLanGateway1, getDHCPProperty, h]⟩

/-- A concrete state whose combined DHCP mode is v4. -/
def sampleStateV4 : NetworkState where
  params := ⟨1, "eth0", "svc", .eth "eth0", .eth "eth0"⟩
  addrs4 := []
  addrs6 := []
  dhcp := fun _ => .v4
  gateway4 := fun _ => none
  gateway6 := fun _ => none
  neigh4 := []
  neigh6 := []
  vlanId := fun _ => 0
  nextObjId := 0

/-- C7 witness: the guard at a state with DHCPv4 active. -/
theorem dhcp_guard_rejects_v4_writes_witness :
    setLanIP sampleStateV4 [10, 0, 0, 1] = .ok (.commandNotAvailable, sampleStateV4) ∧
    setLanSubnetMask sampleStateV4 [10, 0, 0, 1] = .ok (.commandNotAvailable, sampleStateV4) ∧
    setLanGateway1 sampleStateV4 [10, 0, 0, 1] = .ok (.commandNotAvailable, sampleStateV4) :=
  dhcp_guard_rejects_v4_writes sampleStateV4 [10, 0, 0, 1] (Or.inl rfl)

/-! ### Theorems: idempotent object deletion (claim C8) -/

/-- C8: deleteObjectIfExists is a no-op on an empty path (no Delete call
is ever issued); with a nonempty path a successful delete is fine, the
two error names meaning object-already-absent and
generic-internal-failure are swallowed, and any other backend error is
re-raised to the caller. -/
theorem deleteObjectIfExists_spec (path e : String) :
    (∀ res, deleteObjectIfExists "" res = (false, .ok ())) ∧
    (path ≠ "" → deleteObjectIfExists path none = (true, .ok ())) ∧
    (path ≠ "" →
      (e = "xyz.openbmc_project.Common.Error.InternalFailure" ∨
       e = "org.freedesktop.DBus.Error.UnknownObject") →
      deleteObjectIfExists path (some e) = (true, .ok ())) ∧
    (path ≠ "" →
      e ≠ "xyz.openbmc_project.Common.Error.InternalFailure" →
      e ≠ "org.freedesktop.DBus.Error.UnknownObject" →
      deleteObjectIfExists path (some e) = (true, .error (.sdbus e))) := by
  refine ⟨fun res => rfl, fun hp => ?_, fun hp he => ?_, fun hp h1 h2 => ?_⟩
  · simp [deleteObjectIfExists, hp]
  · rcases he with he | he <;> simp [deleteObjectIfExists, hp, he]
  · simp [deleteObjectIfExists, hp, h1, h2]

/-- C8 witness: a real path with a swallowed and a re-raised error. -/
theorem deleteObjectIfExists_spec_witness :
    deleteObjectIfExists "/xyz/obj" none = (true, .ok ()) ∧
    deleteObjectIfExists "/xyz/obj"
      (some "org.freedesktop.DBus.Error.UnknownObject") = (true, .ok ()) ∧
    deleteObjectIfExists "/xyz/obj" (some "org.freedesktop.DBus.Error.AccessDenied") =
      (true, .error (.sdbus "org.freedesktop.DBus.Error.AccessDenied")) :=
  ⟨(deleteObjectIfExists_spec "/xyz/obj" "x").2.1 (by decide),
   (deleteObjectIfExists_spec "/xyz/obj"
      "org.freedesktop.DBus.Error.UnknownObject").2.2.1 (by decide) (Or.inr rfl),
   (deleteObjectIfExists_spec "/xyz/obj"
      "org.freedesktop.DBus.Error.AccessDenied").2.2.2 (by decide) (by decide) (by decide)⟩

/-! ### Theorems: IPv6 slot bounds on read (claim C9) -/

/-- C9: a Get LAN IPv6StaticAddresses request whose set selector is at
or above the slot bound returns parameter-out-of-range and the backend
is never queried (the Bool component of the model records whether the
per-slot lookup ran). -/
theorem getLan_ipv6_slot_out_of_range (st : NetworkState) (set : Nat)
    (h : MAX_IPV6_STATIC_ADDRESSES ≤ set) :
    getLanIPv6StaticAddresses st set = (.ok .paramOutOfRange, false) := by
  simp [getLanIPv6StaticAddresses, h]

/-- C9 witness: the bound itself is already rejected. -/
theorem getLan_ipv6_slot_out_of_range_witness :
    getLanIPv6StaticAddresses sampleStateV6 15 = (.ok .paramOutOfRange, false) :=
  getLan_ipv6_slot_out_of_range sampleStateV6 15 (by decide)

/-! ### Theorems: IPv6 slot selector unchecked on write (claim C10) -/

/-- C10: the Set LAN IPv6StaticAddresses case with zero reserved bits
never bounds-checks the set selector: it hands it verbatim to the slot
reconfigure (enabled) or deconfigure (disabled) operation — also for
selectors at or above the slot bound — and its completion code is
success, never parameter-out-of-range. -/
theorem setLan_ipv6_slot_unchecked (st : NetworkState) (set : Nat)
    (enabled : Bool) (ip pfxLen status : Nat) :
    setLanIPv6StaticAddresses st set 0 enabled ip pfxLen status =
      (.success,
        if enabled then reconfigureIfAddr6 st set ip pfxLen
        else deconfigureIfAddr6 st set) ∧
    (setLanIPv6StaticAddresses st set 0 enabled ip pfxLen status).1 ≠
      CC.paramOutOfRange := by
  cases enabled <;> exact ⟨by simp [setLanIPv6StaticAddresses],
                           by simp [setLanIPv6StaticAddresses]⟩

/-! ### VLAN lifecycle skeleton lemmas -/

/-- The restore folds of reconfigureVLAN only touch address objects:
channel parameters and the VLAN id map pass through. -/
theorem foldl_createIfAddr6_preserve (l : List IfAddrM) (st : NetworkState) :
    (l.foldl (fun s a => createIfAddr6 s a.address a.prefixLen) st).params = st.params ∧
    (l.foldl (fun s a => createIfAddr6 s a.address a.prefixLen) st).vlanId = st.vlanId := by
  induction l generalizing st with
  | nil => exact ⟨rfl, rfl⟩
  | cons a l ih => simpa [createIfAddr6] using ih (createIfAddr6 st a.address a.prefixLen)

/-- deconfigureChannel collapses the logical path onto the physical one
and leaves the channel identity and the VLAN id map alone. -/
theorem deconfigureChannel_fields (st : NetworkState) :
    (deconfigureChannel st).params.logicalPath = st.params.ifPath ∧
    (deconfigureChannel st).params.ifPath = st.params.ifPath ∧
    (deconfigureChannel st).params.ifname = st.params.ifname ∧
    (deconfigureChannel st).vlanId = st.vlanId := by
  unfold deconfigureChannel setDHCPv6Property
  by_cases h : st.params.logicalPath ≠ st.params.ifPath <;> simp [h]
  · exact not_not.mp h

/-- reconfigureVLAN's effect on the channel parameters and the VLAN id
map: the logical path moves to the new VLAN object (or collapses to the
physical path for id 0) and the id map gains the new object's id. -/
theorem reconfigureVLAN_skeleton (st : NetworkState) (vlan : Nat) :
    ((reconfigureVLAN st vlan).params.logicalPath =
      if vlan = 0 then st.params.ifPath
      else DbusPath.vlan st.params.ifname vlan) ∧
    (reconfigureVLAN st vlan).params.ifPath = st.params.ifPath ∧
    ((reconfigureVLAN st vlan).vlanId =
      if vlan = 0 then st.vlanId
      else updMap st.vlanId (DbusPath.vlan st.params.ifname vlan) vlan) := by
  have hd := deconfigureChannel_fields st
  have hpv : (reconfigureVLAN st vlan).params =
      (createVLAN (deconfigureChannel st) vlan).params ∧
      (reconfigureVLAN st vlan).vlanId =
      (createVLAN (deconfigureChannel st) vlan).vlanId := by
    cases h4 : findIfAddrIn st.params 0 originsV4 st.addrs4 <;>
    cases hn4 : findGatewayNeighbor4 st st.neigh4 <;>
    cases hn6 : findGatewayNeighbor6 st st.neigh6 <;>
      simp [reconfigureVLAN, h4, hn4, hn6, setDHCPv6Property,
            createIfAddr4, createNeighbor4, createNeighbor6,
            foldl_createIfAddr6_preserve]
  by_cases hv : vlan = 0
  · subst hv
    simp only [createVLAN, if_pos rfl] at hpv
    simp only [if_pos rfl]
    exact ⟨hpv.1 ▸ hd.1, hpv.1 ▸ hd.2.1, hpv.2 ▸ hd.2.2.2⟩
  · simp only [createVLAN, if_neg hv] at hpv
    simp only [if_neg hv]
    refine ⟨?_, ?_, ?_⟩
    · rw [hpv.1]; simp [hd.2.2.1]
    · rw [hpv.1]; simp [hd.2.1]
    · rw [hpv.2]; simp [hd.2.2.1, hd.2.2.2]

/-! ### Theorems: VLANId set/get (claim C5) -/

/-- C5: for the Set LAN VLANId parameter on a channel whose physical
object is the plain interface object: nonzero reserved bits are an
invalid-field error; enable with id 0 or 0xFFF is an invalid-field
error; disabling with id 100 succeeds, stores 100 as last-disabled, and
a subsequent VLANId read returns 100 with the enable bit clear;
enabling id 100 succeeds and a subsequent read returns 100 with the
enable flag bit set. -/
theorem vlan_id_set_get (st : NetworkState) (ldv : List (Nat × Nat))
    (ch data rsvd : Nat) (enable : Bool)
    (hif : st.params.ifPath = .eth st.params.ifname) :
    (rsvd ≠ 0 →
      setLanVLANId st ldv ch data rsvd enable = (.invalidFieldRequest, st, ldv)) ∧
    (enable = true → data = 0 ∨ data = VLAN_VALUE_MASK →
      setLanVLANId st ldv ch data 0 enable = (.invalidFieldRequest, st, ldv)) ∧
    ((setLanVLANId st ldv ch 100 0 false).1 = .success ∧
      getLanVLANId (setLanVLANId st ldv ch 100 0 false).2.1
        (setLanVLANId st ldv ch 100 0 false).2.2 ch = .ok 100 ∧
      Nat.land 100 VLAN_ENABLE_FLAG = 0) ∧
    ((setLanVLANId st ldv ch 100 0 true).1 = .success ∧
      getLanVLANId (setLanVLANId st ldv ch 100 0 true).2.1
        (setLanVLANId st ldv ch 100 0 true).2.2 ch =
        .ok (Nat.lor 100 VLAN_ENABLE_FLAG)) := by
  refine ⟨?_, ?_, ⟨rfl, ?_, by decide⟩, ⟨rfl, ?_⟩⟩
  · intro h
    simp [setLanVLANId, h]
  · intro he hd
    subst he
    rcases hd with hd | hd <;> simp [setLanVLANId, hd]
  · have hsk := reconfigureVLAN_skeleton st 0
    have hcomp : (setLanVLANId st ldv ch 100 0 false).2.1 = reconfigureVLAN st 0 ∧
        (setLanVLANId st ldv ch 100 0 false).2.2 = (ch, 100) :: ldv := by
      simp [setLanVLANId]
    rw [hcomp.1, hcomp.2]
    rw [getLanVLANId, getVLANProperty]
    rw [if_pos (hsk.2.1.trans (if_pos rfl ▸ hsk.1).symm)]
    simp [lookupLastDisabledVlan]
  · have hsk := reconfigureVLAN_skeleton st 100
    have hcomp : (setLanVLANId st ldv ch 100 0 true).2.1 = reconfigureVLAN st 100 ∧
        (setLanVLANId st ldv ch 100 0 true).2.2 = ldv := by
      simp [setLanVLANId, VLAN_VALUE_MASK]
    rw [hcomp.1, hcomp.2]
    have h100 : (100 : Nat) ≠ 0 := by decide
    have hlp : (reconfigureVLAN st 100).params.logicalPath =
        DbusPath.vlan st.params.ifname 100 := by
      rw [hsk.1, if_neg h100]
    have hne : (reconfigureVLAN st 100).params.ifPath ≠
        (reconfigureVLAN st 100).params.logicalPath := by
      rw [hlp, hsk.2.1, hif]
      simp
    rw [getLanVLANId, getVLANProperty, if_neg hne]
    have hid : (reconfigureVLAN st 100).vlanId
        (reconfigureVLAN st 100).params.logicalPath = 100 := by
      rw [hlp, hsk.2.2, if_neg h100, updMap, if_pos rfl]
    rw [hid]
    have hl : Nat.land 100 VLAN_VALUE_MASK = 100 := by decide
    simp [hl]

/-- C5 witness: concrete channel 1 on the sample state. -/
theorem vlan_id_set_get_witness :
    (setLanVLANId sampleStateV6 [] 1 100 5 true = (.invalidFieldRequest, sampleStateV6, [])) ∧
    (setLanVLANId sampleStateV6 [] 1 0 0 true = (.invalidFieldRequest, sampleStateV6, [])) ∧
    ((setLanVLANId sampleStateV6 [] 1 100 0 false).1 = .success ∧
      getLanVLANId (setLanVLANId sampleStateV6 [] 1 100 0 false).2.1
        (setLanVLANId sampleStateV6 [] 1 100 0 false).2.2 1 = .ok 100 ∧
      Nat.land 100 VLAN_ENABLE_FLAG = 0) ∧
    ((setLanVLANId sampleStateV6 [] 1 100 0 true).1 = .success ∧
      getLanVLANId (setLanVLANId sampleStateV6 [] 1 100 0 true).2.1
        (setLanVLANId sampleStateV6 [] 1 100 0 true).2.2 1 =
        .ok (Nat.lor 100 VLAN_ENABLE_FLAG)) :=
  ⟨(vlan_id_set_get sampleStateV6 [] 1 100 5 true rfl).1 (by decide),
   (vlan_id_set_get sampleStateV6 [] 1 0 0 true rfl).2.1 rfl (Or.inl rfl),
   (vlan_id_set_get sampleStateV6 [] 1 100 0 false rfl).2.2.1,
   (vlan_id_set_get sampleStateV6 [] 1 100 0 true rfl).2.2.2⟩

/-! ### Theorems: VLAN reconfiguration round trip (claim C1) -/

/-- Collapsing the logical path onto the physical path is the identity
when no VLAN object exists. -/
theorem collapse_params (p : ChannelParams) (h : p.logicalPath = p.ifPath) :
    { p with logicalPath := p.ifPath } = p := by
  cases p
  simp_all

/-- deconfigureChannel written without the conditional collapse: because
both branches of the collapse produce a logical path equal to the
physical one, the conditional can be replaced by the unconditional
update. -/
theorem deconfigureChannel_eq (st : NetworkState) :
    deconfigureChannel st =
      setDHCPv6Property
        { st with
          params := { st.params with logicalPath := st.params.ifPath }
          addrs4 := st.addrs4.filter (fun a => a.ifacePath.ifnameOf ≠ st.params.ifname)
          addrs6 := st.addrs6.filter (fun a => a.ifacePath.ifnameOf ≠ st.params.ifname)
          neigh4 := st.neigh4.filter (fun n => n.ifacePath.ifnameOf ≠ st.params.ifname)
          neigh6 := st.neigh6.filter (fun n => n.ifacePath.ifnameOf ≠ st.params.ifname) }
        .none false := by
  unfold deconfigureChannel
  by_cases h : st.params.logicalPath ≠ st.params.ifPath
  · simp [h]
  · have h2 := not_not.mp h
    simp [h, collapse_params st.params h2]

/-- The pre-state of the C1 scenario: the channel's logical interface L
carries one IPv4 address A/P of origin o4, two configured IPv6 static
addresses, gateway properties for both families, and one gateway
neighbor entry per family; the combined DHCP property and the VLAN id
property maps are arbitrary. -/
def vlanScenario (ch : Nat) (ifname svc : String) (L : DbusPath)
    (A P : Nat) (o4 : AddressOrigin) (B1 Q1 B2 Q2 g4 m4 g6 m6 : Nat)
    (dhcpf : DbusPath → DHCPConf) (g4f g6f : DbusPath → Option Nat)
    (vlf : DbusPath → Nat) : NetworkState where
  params := ⟨ch, ifname, svc, .eth ifname, L⟩
  addrs4 := [⟨A, P, o4, 10, L⟩]
  addrs6 := [⟨B1, Q1, .Static, 11, L⟩, ⟨B2, Q2, .Static, 12, L⟩]
  dhcp := dhcpf
  gateway4 := g4f
  gateway6 := g6f
  neigh4 := [⟨g4, m4, 13, L⟩]
  neigh6 := [⟨g6, m6, 14, L⟩]
  vlanId := vlf
  nextObjId := 20

/-- All of the captured configuration is present again on the current
logical object of st: the IPv4 address A/P is the visible IPv4 address,
the two IPv6 static addresses occupy slots 0 and 1, the combined DHCP
mode reads both, and the per-family neighbor objects hold the captured
gateway/MAC pairs. -/
def restoredOn (st : NetworkState)
    (A P B1 Q1 B2 Q2 g4 m4 g6 m6 : Nat) : Prop :=
  ((findIfAddrIn st.params 0 originsV4 st.addrs4).map
      (fun a => (a.address, a.prefixLen, a.ifacePath)) =
    some (A, P, st.params.logicalPath)) ∧
  ((findIfAddrIn st.params 0 originsV6Static st.addrs6).map
      (fun a => (a.address, a.prefixLen, a.ifacePath)) =
    some (B1, Q1, st.params.logicalPath)) ∧
  ((findIfAddrIn st.params 1 originsV6Static st.addrs6).map
      (fun a => (a.address, a.prefixLen, a.ifacePath)) =
    some (B2, Q2, st.params.logicalPath)) ∧
  st.dhcp st.params.logicalPath = .both ∧
  st.neigh4.map (fun n => (n.ip, n.mac, n.ifacePath)) =
    [(g4, m4, st.params.logicalPath)] ∧
  st.neigh6.map (fun n => (n.ip, n.mac, n.ifacePath)) =
    [(g6, m6, st.params.logicalPath)]

/-- The Static origin is accepted by the IPv4 origin filter. -/
theorem containsV4_Static : AddressOrigin.Static ∈ originsV4 := by decide

/-- The DHCP origin is accepted by the IPv4 origin filter. -/
theorem containsV4_DHCP : AddressOrigin.DHCP ∈ originsV4 := by decide

/-- The Static origin is accepted by the IPv6 static-slot filter. -/
theorem containsV6S_Static : AddressOrigin.Static ∈ originsV6Static := by decide

/-- C1: reconfigureVLAN on the scenario state moves the logical path to
the new VLAN object (or collapses it to the physical path when the new
id is 0) and the captured IPv4 address with its prefix, both IPv6
static addresses, the combined DHCP mode both, and both gateway
neighbor MAC entries are all present again on the new logical object. -/
theorem vlan_reconfigure_roundtrip
    (ch : Nat) (ifname svc : String) (L : DbusPath)
    (A P : Nat) (o4 : AddressOrigin) (B1 Q1 B2 Q2 g4 m4 g6 m6 newId : Nat)
    (dhcpf : DbusPath → DHCPConf) (g4f g6f : DbusPath → Option Nat)
    (vlf : DbusPath → Nat)
    (hLn : L.ifnameOf = ifname)
    (ho4 : o4 = AddressOrigin.Static ∨ o4 = AddressOrigin.DHCP)
    (hd : dhcpf L = DHCPConf.both)
    (hg4 : g4f L = some g4)
    (hg6 : g6f L = some g6) :
    ((reconfigureVLAN
        (vlanScenario ch ifname svc L A P o4 B1 Q1 B2 Q2 g4 m4 g6 m6
          dhcpf g4f g6f vlf) newId).params.logicalPath =
      if newId = 0 then DbusPath.eth ifname
      else DbusPath.vlan ifname newId) ∧
    restoredOn
      (reconfigureVLAN
        (vlanScenario ch ifname svc L A P o4 B1 Q1 B2 Q2 g4 m4 g6 m6
          dhcpf g4f g6f vlf) newId)
      A P B1 Q1 B2 Q2 g4 m4 g6 m6 := by
  subst hLn
  rcases ho4 with ho | ho <;> subst ho <;> by_cases hv : newId = 0 <;>
    simp [vlanScenario, reconfigureVLAN, deconfigureChannel_eq, restoredOn,
          findIfAddrIn, findGatewayNeighbor4, findGatewayNeighbor6,
          getGatewayProperty4, getGatewayProperty6, findStaticNeighborIn,
          getDHCPProperty, setDHCPv6Property, createVLAN, createIfAddr4,
          createIfAddr6, createNeighbor4, createNeighbor6, collectIfAddrs6,
          MAX_IPV6_STATIC_ADDRESSES, updMap, containsV4_Static,
          containsV4_DHCP, containsV6S_Static, hd, hg4, hg6, hv]

/-- C1 witness: a concrete scenario (no prior VLAN, DHCP both, static
IPv4 address, two IPv6 addresses, both gateway neighbors) reconfigured
to VLAN id 2. -/
theorem vlan_reconfigure_roundtrip_witness :
    ((reconfigureVLAN
        (vlanScenario 1 "eth0" "svc" (.eth "eth0") 3232235521 24 .Static
          1 64 2 64 3232235777 66 7 77
          (fun _ => .both) (fun _ => some 3232235777) (fun _ => some 7)
          (fun _ => 0)) 2).params.logicalPath =
      if 2 = 0 then DbusPath.eth "eth0" else DbusPath.vlan "eth0" 2) ∧
    restoredOn
      (reconfigureVLAN
        (vlanScenario 1 "eth0" "svc" (.eth "eth0") 3232235521 24 .Static
          1 64 2 64 3232235777 66 7 77
          (fun _ => .both) (fun _ => some 3232235777) (fun _ => some 7)
          (fun _ => 0)) 2)
      3232235521 24 1 64 2 64 3232235777 66 7 77 :=
  vlan_reconfigure_roundtrip 1 "eth0" "svc" (.eth "eth0") 3232235521 24 .Static
    1 64 2 64 3232235777 66 7 77 2
    (fun _ => .both) (fun _ => some 3232235777) (fun _ => some 7) (fun _ => 0)
    rfl (Or.inl rfl) rfl rfl rfl

end Transport
